import Mathlib

/-!
Shallow embedding of `test-qaa-agentic-ai-py.py`, a configuration script that
wires five chat agents (an AutoGen group chat) for QA test-plan generation.
The embedding models the Python string operations used by the termination
predicate, the directory setup, the static agent/group-chat configuration,
and the straight-line main program, together with small models (taken from
the specification) of the external framework behaviours the configuration
relies on.
-/

namespace QaaAgentic

/-- Code points of the characters for which Python's `str.isspace` is true,
the set stripped by `str.rstrip()` with no argument: tab, newline, vertical
tab, form feed, carriage return, the file/group/record/unit separators
U+001C-U+001F, space, next line U+0085, no-break space U+00A0, Ogham space
mark U+1680, the Zs spaces U+2000-U+200A, line separator U+2028, paragraph
separator U+2029, narrow no-break space U+202F, medium mathematical space
U+205F and ideographic space U+3000. -/
def pyWhitespaceCodes : List Nat :=
  [0x09, 0x0a, 0x0b, 0x0c, 0x0d, 0x1c, 0x1d, 0x1e, 0x1f, 0x20, 0x85, 0xa0,
   0x1680, 0x2000, 0x2001, 0x2002, 0x2003, 0x2004, 0x2005, 0x2006, 0x2007,
   0x2008, 0x2009, 0x200a, 0x2028, 0x2029, 0x202f, 0x205f, 0x3000]

/-- Whitespace test used by Python's `str.rstrip` with no argument
(`str.isspace` on a single character). -/
def pyIsSpace (c : Char) : Bool :=
  pyWhitespaceCodes.contains c.toNat

/-- Python `str.rstrip()`: remove all trailing whitespace characters. -/
def pyRstrip (s : List Char) : List Char :=
  (s.reverse.dropWhile pyIsSpace).reverse

/-- Python `str.endswith(t)`: `t` is a suffix of `s`. -/
def pyEndsWith (s t : List Char) : Bool :=
  decide (t <:+ s)

/-- A chat message, modelled as a Python dictionary with string keys and
string values (an association list). -/
abbrev Message := List (String × String)

/-- Python `dict.get(key, default)`: the value at the first occurrence of
`key`, or `default` when the key is absent. -/
def pyDictGet (x : Message) (key dflt : String) : String :=
  match x.find? (fun kv => kv.1 == key) with
  | some kv => kv.2
  | none => dflt

/-- Termination predicate configured on the user proxy, source lines 77-78:
`lambda x: x.get("content", "").rstrip().endswith("TERMINATE")`. -/
def is_termination_msg (x : Message) : Bool :=
  pyEndsWith (pyRstrip (pyDictGet x "content" "").data) "TERMINATE".data

/-! Filesystem model for the directory setup.  The state is the set of
existing directories. -/

/-- Python `os.path.exists` on the directory-set model. -/
def os_path_exists (d : String) (fs : Finset String) : Bool :=
  decide (d ∈ fs)

/-- Python `os.makedirs(d)` without `exist_ok`: raises `FileExistsError` when
the directory already exists, otherwise creates it. -/
def os_makedirs (d : String) (fs : Finset String) : Except String (Finset String) :=
  if d ∈ fs then Except.error "FileExistsError" else Except.ok (insert d fs)

/-- Python `os.makedirs(d, exist_ok=True)`: creates the directory when absent
and does nothing when it already exists (never raises). -/
def os_makedirs_exist_ok (d : String) (fs : Finset String) : Finset String :=
  insert d fs

/-- Working directory for generated code, source line 57. -/
def code_execution_work_dir : String := "coding_workspace"

/-- Python `os.path.join` for the relative-path cases used here. -/
def os_path_join (a b : String) : String :=
  if b.data.head? = some '/' then b
  else if a.data = [] then b
  else if a.data.getLast? = some '/' then a ++ b
  else a ++ "/" ++ b

/-- Log file path built in `init_log`, source line 35:
`os.path.join("logs", "conversation_log.log")`. -/
def init_log_filename : String := os_path_join "logs" "conversation_log.log"

/-- Directory-creation part of `init_log`, source lines 38-39: create `"logs"`
only when it does not already exist. -/
def init_log_dirs (fs : Finset String) : Except String (Finset String) :=
  if os_path_exists "logs" fs then Except.ok fs else os_makedirs "logs" fs

/-- Directory setup performed by the script: source line 59 creates the
working directory with `exist_ok=True`, then `init_log` (called at line 65)
creates the log directory if absent. -/
def setup_dirs (fs : Finset String) : Except String (Finset String) :=
  init_log_dirs (os_makedirs_exist_ok code_execution_work_dir fs)

/-! Static configuration: LLM settings, agents, group chat, manager. -/

/-- One entry of the `config_list`, source lines 15-24. -/
structure LLMEndpoint where
  model : String
  api_type : String
  base_url : String
deriving DecidableEq, Repr

/-- The shared LLM configuration dictionary, source lines 13-28. -/
structure LLMConfig where
  config_list : List LLMEndpoint
  temperature : ℚ
  timeout : Nat
deriving DecidableEq, Repr

/-- The `llm_config` value, source lines 13-28. -/
def llm_config : LLMConfig :=
  { config_list :=
      [ { model := "llama2:13b", api_type := "ollama",
          base_url := "http://localhost:11434/api" },
        { model := "deepseek-r1:8b", api_type := "ollama",
          base_url := "http://localhost:11434/api" } ],
    temperature := 0.7,
    timeout := 600 }

/-- An assistant agent: a configuration record of name, system prompt and LLM
connection parameters. -/
structure Agent where
  name : String
  system_message : String
  llm_config : LLMConfig
deriving DecidableEq, Repr

/-- Code-execution settings of the user proxy, source lines 71-74. -/
structure CodeExecutionConfig where
  work_dir : String
  last_n_messages : Nat
deriving DecidableEq, Repr

/-- The user proxy agent: an agent together with its code-execution settings,
human-input mode and termination predicate, source lines 67-79. -/
structure UserProxyAgentT extends Agent where
  code_execution_config : CodeExecutionConfig
  human_input_mode : String
  termination_check : Message → Bool

/-- The `user_proxy` agent, source lines 67-79. -/
def user_proxy : UserProxyAgentT :=
  { name := "Admin",
    system_message := "A human administrator who oversees the process, provides tasks, and reviews outputs. Can execute code.",
    llm_config := llm_config,
    code_execution_config :=
      { work_dir := code_execution_work_dir, last_n_messages := 1 },
    human_input_mode := "ALWAYS",
    termination_check := is_termination_msg }

/-- The `test_plan_generator` agent, source lines 82-102. -/
def test_plan_generator : Agent :=
  { name := "TestPlanGenerator",
    system_message := "You are an expert Test Lead.
Your role is to understand the user's request and create a detailed test plan.
Output the plan in a clear, structured format, typically including the following sections:

- **Introduction/Objective:** Briefly state the purpose of the test plan.
- **Test Scope:** Clearly define what will be tested (in-scope) and what will not be tested (out-of-scope).
- **Types of Testing:** Outline the various testing methodologies to be employed (e.g., functional, negative, boundary, performance, security, usability, regression, integration).
- **High-Level Test Scenarios:** Describe the main functionalities or user flows that will be tested. Focus on *what* to test, not detailed steps.
- **Test Environment Requirements:** Specify any necessary hardware, software, or network configurations.
- **Test Data Requirements:** Briefly outline the types of test data needed.
- **Entry Criteria:** Define the conditions that must be met before testing can begin.
- **Exit Criteria:** Define the conditions that must be met for testing to be considered complete.
- **Risks & Mitigations:** Identify potential risks to the testing effort and plans to mitigate them.

Explain the rationale behind the proposed testing approaches and scope decisions.
Once the test plan is complete, ask the user for approval or any necessary modifications.
",
    llm_config := llm_config }

/-- The `test_case_generator` agent, source lines 105-114. -/
def test_case_generator : Agent :=
  { name := "TestCaseGenerator",
    system_message := "
You are a meticulous Test Case Designer. Based on the test plan, you will generate detailed, step-by-step test cases.
For each test case, include a **Test ID**, **Description**, **Preconditions**, **Steps** (as actionable instructions), **Expected Result**, and a placeholder for **Actual Result**.
Clearly indicate the **Test Case Type** (e.g., Functional, Negative, Boundary) where applicable.
Use a clear, tabular, or list format for presentation.
    ",
    llm_config := llm_config }

/-- The `code_generator` agent, source lines 117-128. -/
def code_generator : Agent :=
  { name := "CodeGenerator",
    system_message := "
You are a skilled Test Automation Engineer.
Your task is to write complete and runnable Python automation scripts (e.g., using Playwright for UI or 'requests' for API) based on the provided test cases.
Ensure the code is robust, includes clear assertions, handles common errors gracefully, and is designed for reusability and maintainability.
For UI automation, prioritize reliable locators and appropriate waiting strategies.
Provide only the code, enclosed in triple backticks.
If you need to install a library, suggest `pip install <library_name>`.
    ",
    llm_config := llm_config }

/-- The `test_report_analyzer` agent, source lines 131-141. -/
def test_report_analyzer : Agent :=
  { name := "TestReportAnalyzer",
    system_message := "
You are an insightful QA Analyst.
Your task is to thoroughly analyze test execution logs and results.
Summarize the findings, identify any failures or anomalies, and provide root cause analysis where possible.
Based on your analysis, suggest actionable recommendations for bug fixing or test suite improvement.
Format your report clearly, typically including sections such as 'Summary of Findings,' 'Failed Test Cases/Anomalies,' 'Root Cause Analysis,' and 'Recommendations for Improvement.'
    ",
    llm_config := llm_config }

/-- The group chat container: the configured agent list, the accumulated
message list, and the round limit. -/
structure GroupChat where
  agents : List Agent
  messages : List Message
  max_round : Nat

/-- The `groupchat` value, source lines 146-151. -/
def groupchat : GroupChat :=
  { agents := [user_proxy.toAgent, test_plan_generator, test_case_generator,
               code_generator, test_report_analyzer],
    messages := [],
    max_round := 5 }

/-- The group chat manager, source line 152. -/
structure GroupChatManager where
  groupchat : GroupChat
  llm_config : LLMConfig

/-- The `manager` value, source line 152. -/
def manager : GroupChatManager :=
  { groupchat := groupchat, llm_config := llm_config }

/-! Model of the external framework's round-limited conversation loop. -/

/-- State of a running group conversation: the number of completed rounds and
the transcript so far. -/
structure ChatState where
  round : Nat
  transcript : List Message

/-- Modelled from the spec: the external framework's conversation loop is
round-limited — a turn may be taken only while the round count is below the
group chat's configured `max_round`; each turn appends one message and
advances the round count by one. -/
inductive FrameworkStep (gc : GroupChat) : ChatState → ChatState → Prop
  | speak (s : ChatState) (m : Message) (h : s.round < gc.max_round) :
      FrameworkStep gc s ⟨s.round + 1, s.transcript ++ [m]⟩

/-- Conversation states reachable from the configured group chat's initial
state (zero rounds, the configured initial message list). -/
inductive Reachable (gc : GroupChat) : ChatState → Prop
  | init : Reachable gc ⟨0, gc.messages⟩
  | step {s t : ChatState} : Reachable gc s → FrameworkStep gc s t → Reachable gc t

/-! Model of the user proxy's human-input behaviour. -/

/-- An action the user proxy is about to take in its turn. -/
inductive ProxyAction where
  | execCode
  | terminate
  | reply
deriving DecidableEq, Repr

/-- An observable event of the user proxy's loop. -/
inductive ProxyEv where
  | humanInput
  | execCode
  | terminate
  | reply
deriving DecidableEq, Repr

/-- The event corresponding to carrying out an action. -/
def evOf : ProxyAction → ProxyEv
  | ProxyAction.execCode => ProxyEv.execCode
  | ProxyAction.terminate => ProxyEv.terminate
  | ProxyAction.reply => ProxyEv.reply

/-- Whether an action is one of the two that require human approval: executing
code or terminating. -/
def needs_human_approval : ProxyAction → Bool
  | ProxyAction.execCode => true
  | ProxyAction.terminate => true
  | ProxyAction.reply => false

/-- Modelled from the spec: with `human_input_mode="ALWAYS"` the external
framework's user proxy requests human input synchronously before each code
execution and before each termination decision; otherwise the action is
carried out directly. -/
def proxyEmit (mode : String) (a : ProxyAction) : List ProxyEv :=
  if mode == "ALWAYS" && needs_human_approval a then
    [ProxyEv.humanInput, evOf a]
  else
    [evOf a]

/-- Event trace of the user proxy processing a sequence of actions. -/
def proxyTrace (mode : String) (as : List ProxyAction) : List ProxyEv :=
  as.flatMap (proxyEmit mode)

/-! Model of the session logging lifecycle and the main program. -/

/-- Message sent by `initiate_chat`, source line 162: the fixed template with
the user's task interpolated at the end. -/
def initialMessage (initial_task : String) : String :=
  "Please create a detailed test plan, then generate test cases, write automation code, execute it, and finally analyze the results for: " ++ initial_task

/-- An observable logging/conversation event of one program run. -/
inductive Ev where
  | logStart (path : String)
  | chatMsg (content : String)
  | logStop
deriving DecidableEq, Repr

/-- Whether an event belongs to the runtime-logging lifecycle. -/
def isLogEv : Ev → Bool
  | Ev.logStart _ => true
  | Ev.logStop => true
  | Ev.chatMsg _ => false

/-- Modelled from the spec: the external framework's file runtime logger is
append-only — starting sets the active flag, a chat message is appended to
the log file while logging is active, and stopping clears the flag; the file
contents are never truncated or rewritten. The state is (active, file
contents). -/
def logStep : Bool × List String → Ev → Bool × List String
  | (_, l), Ev.logStart _ => (true, l)
  | (a, l), Ev.chatMsg c => (a, if a then l ++ [c] else l)
  | (_, l), Ev.logStop => (false, l)

/-- Run the logger over an event trace. -/
def runLog (st : Bool × List String) (evs : List Ev) : Bool × List String :=
  evs.foldl logStep st

/-- Modelled from the spec: the repository's two near-duplicate scripts differ
in a logging toggle — the variant under `src/` starts runtime logging to
`init_log_filename` before the conversation (source lines 43-46, 65) and
stops it after the conversation finishes (source line 170), while the other
variant of the repository runs the same conversation with session logging
disabled. `tmpName` is the name of the temporary directory created at source
line 64; it is never read. -/
def programTrace (loggingEnabled : Bool) (tmpName : String) (initial_task : String) : List Ev :=
  (if loggingEnabled then [Ev.logStart init_log_filename] else [])
    ++ [Ev.chatMsg (initialMessage initial_task)]
    ++ (if loggingEnabled then [Ev.logStop] else [])

/-- Runtime state of the script after construction: the group chat, the user
proxy, the logging flag, the session log contents and the conversation
transcript. -/
structure RuntimeState where
  gc : GroupChat
  owner : UserProxyAgentT
  loggingActive : Bool
  sessionLog : List String
  transcript : List Message

/-- `initiate_chat` (source lines 160-163): send the initial message into the
conversation; while logging is active the message is also recorded in the
session log. -/
def initiate_chat (message : String) (s : RuntimeState) : RuntimeState :=
  { s with
    transcript := s.transcript ++ [[("content", message)]],
    sessionLog := if s.loggingActive then s.sessionLog ++ [message] else s.sessionLog }

/-- `autogen.runtime_logging.stop()` (source line 170) on the runtime state. -/
def runtime_logging_stop (s : RuntimeState) : RuntimeState :=
  { s with loggingActive := false }

/-- The conversation phase of the main block (source lines 160-171): initiate
the chat with the templated message, then stop runtime logging. -/
def conversationPhase (initial_task : String) (s : RuntimeState) : RuntimeState :=
  runtime_logging_stop (initiate_chat (initialMessage initial_task) s)

/-- The main entry block (source lines 156-171): read one line from standard
input (`input()` raises when the stream is exhausted), then run the
conversation phase on it; the rest of standard input is left unread. -/
def main_entry (stdin : List String) (s : RuntimeState) :
    Option (RuntimeState × List String) :=
  match stdin with
  | [] => none
  | line :: rest => some (conversationPhase line s, rest)

/-- Replace the timeout of an LLM configuration. -/
def with_timeout_cfg (t : Nat) (c : LLMConfig) : LLMConfig :=
  { c with timeout := t }

/-- Replace the timeout of an agent's LLM configuration. -/
def with_timeout_agent (t : Nat) (a : Agent) : Agent :=
  { a with llm_config := with_timeout_cfg t a.llm_config }

/-- Replace the timeout in every LLM configuration held in the runtime
state (every group-chat agent and the user proxy). -/
def with_timeout_state (t : Nat) (s : RuntimeState) : RuntimeState :=
  { s with
    gc := { s.gc with agents := s.gc.agents.map (with_timeout_agent t) },
    owner := { s.owner with
               toAgent := with_timeout_agent t s.owner.toAgent } }

/-! Helper lemmas about the Python string operations. -/

theorem dropWhile_append_of_forall {α : Type} {p : α → Bool} (l₁ l₂ : List α) :
    (∀ c ∈ l₁, p c = true) → (l₁ ++ l₂).dropWhile p = l₂.dropWhile p := by
  induction l₁ with
  | nil => intro _; rfl
  | cons a l ih =>
    intro h
    rw [List.cons_append, List.dropWhile_cons, if_pos (h a (List.mem_cons_self a l))]
    exact ih fun c hc => h c (List.mem_cons_of_mem a hc)

theorem pyRstrip_append_spaces (p ws : List Char) (h : ∀ c ∈ ws, pyIsSpace c = true) :
    pyRstrip (p ++ ws) = pyRstrip p := by
  unfold pyRstrip
  rw [List.reverse_append,
    dropWhile_append_of_forall ws.reverse p.reverse
      (fun c hc => h c (List.mem_reverse.mp hc))]

theorem pyRstrip_eq_self {l : List Char} {c : Char}
    (h1 : l.reverse.head? = some c) (h2 : pyIsSpace c = false) :
    pyRstrip l = l := by
  unfold pyRstrip
  cases hrev : l.reverse with
  | nil => rw [hrev] at h1; simp at h1
  | cons a rest =>
    rw [hrev] at h1
    have hac : a = c := by simpa using h1
    rw [List.dropWhile_cons, if_neg (by simp [hac, h2]), ← hrev,
      List.reverse_reverse]

theorem pyRstrip_append_terminate (lead : List Char) :
    pyRstrip (lead ++ "TERMINATE".data) = lead ++ "TERMINATE".data := by
  have hhead : (lead ++ "TERMINATE".data).reverse.head? = some 'E' := by
    rw [List.reverse_append,
      show "TERMINATE".data.reverse = 'E' :: "TANIMRET".data from by decide]
    rfl
  exact pyRstrip_eq_self hhead (by decide)

theorem pyRstrip_decomposition (l : List Char) :
    ∃ ws, l = pyRstrip l ++ ws ∧ ∀ c ∈ ws, pyIsSpace c = true := by
  refine ⟨(l.reverse.takeWhile pyIsSpace).reverse, ?_, ?_⟩
  · show l = pyRstrip l ++ (l.reverse.takeWhile pyIsSpace).reverse
    unfold pyRstrip
    rw [← List.reverse_append, List.takeWhile_append_dropWhile, List.reverse_reverse]
  · intro c hc
    exact List.mem_takeWhile_imp (List.mem_reverse.mp hc)

theorem pyEndsWith_iff (s t : List Char) :
    pyEndsWith s t = true ↔ ∃ p, s = p ++ t := by
  unfold pyEndsWith
  rw [decide_eq_true_eq]
  exact ⟨fun ⟨p, hp⟩ => ⟨p, hp.symm⟩, fun ⟨p, hp⟩ => ⟨p, hp.symm⟩⟩

/-- Claim C1: the termination predicate returns true exactly when the
message's content, after trimming trailing whitespace, ends with the literal
string "TERMINATE" — i.e. exactly when the content is some leading content,
then "TERMINATE", then trailing whitespace — and false otherwise. -/
theorem termination_predicate_iff (s : String) :
    is_termination_msg [("content", s)] = true ↔
      ∃ lead ws : List Char,
        s.data = lead ++ "TERMINATE".data ++ ws ∧ ∀ c ∈ ws, pyIsSpace c = true := by
  have hget : pyDictGet [("content", s)] "content" "" = s := rfl
  have hdef : is_termination_msg [("content", s)]
      = pyEndsWith (pyRstrip s.data) "TERMINATE".data := by
    unfold is_termination_msg
    rw [hget]
  rw [hdef]
  constructor
  · intro h
    obtain ⟨ws, hws, hsp⟩ := pyRstrip_decomposition s.data
    obtain ⟨lead, hlead⟩ := (pyEndsWith_iff _ _).mp h
    rw [hlead] at hws
    exact ⟨lead, ws, hws, hsp⟩
  · rintro ⟨lead, ws, hdec, hsp⟩
    rw [hdec, pyRstrip_append_spaces _ _ hsp, pyRstrip_append_terminate]
    exact (pyEndsWith_iff _ _).mpr ⟨lead, rfl⟩

/-- Claim C9: the termination predicate is total on arbitrary message
dictionaries — when the "content" key is absent it falls back to the empty
string default and returns false. -/
theorem termination_predicate_total_without_content (m : Message)
    (h : m.find? (fun kv => kv.1 == "content") = none) :
    is_termination_msg m = false := by
  have hget : pyDictGet m "content" "" = "" := by
    unfold pyDictGet
    rw [h]
  unfold is_termination_msg
  rw [hget]
  decide

/-- Witness for claim C9: a concrete message without a "content" key. -/
theorem termination_predicate_total_without_content_witness :
    is_termination_msg [("role", "assistant")] = false :=
  termination_predicate_total_without_content [("role", "assistant")] (by decide)

/-! Directory setup. -/

theorem setup_dirs_eq (fs : Finset String) :
    setup_dirs fs = Except.ok (insert "logs" (insert code_execution_work_dir fs)) := by
  by_cases h : "logs" ∈ insert code_execution_work_dir fs
  · simp [setup_dirs, init_log_dirs, os_makedirs, os_makedirs_exist_ok,
      os_path_exists, h, Finset.insert_eq_self.mpr h]
  · simp [setup_dirs, init_log_dirs, os_makedirs, os_makedirs_exist_ok,
      os_path_exists, h]

/-- Claim C2: directory setup is idempotent — the working directory
`coding_workspace` and the log directory `logs` are created when absent and
reused unchanged when present; the setup never raises, a second run returns
the same state as the first, and a run on a state that already has both
directories leaves it unchanged. -/
theorem setup_dirs_idempotent (fs : Finset String) :
    setup_dirs fs = Except.ok (insert "logs" (insert code_execution_work_dir fs)) ∧
    code_execution_work_dir ∈ insert "logs" (insert code_execution_work_dir fs) ∧
    ("logs" : String) ∈ insert "logs" (insert code_execution_work_dir fs) ∧
    fs ⊆ insert "logs" (insert code_execution_work_dir fs) ∧
    setup_dirs (insert "logs" (insert code_execution_work_dir fs)) =
      Except.ok (insert "logs" (insert code_execution_work_dir fs)) ∧
    (code_execution_work_dir ∈ fs → "logs" ∈ fs →
      insert "logs" (insert code_execution_work_dir fs) = fs) := by
  refine ⟨setup_dirs_eq fs, by simp, by simp, ?_, ?_, ?_⟩
  · intro x hx
    simp [hx]
  · rw [setup_dirs_eq,
      Finset.insert_eq_self.mpr
        (show code_execution_work_dir ∈
            insert "logs" (insert code_execution_work_dir fs) by simp),
      Finset.insert_eq_self.mpr
        (show ("logs" : String) ∈
            insert "logs" (insert code_execution_work_dir fs) by simp)]
  · intro h1 h2
    rw [Finset.insert_eq_self.mpr h1, Finset.insert_eq_self.mpr h2]

/-- Witness for claim C2: a filesystem that already contains both directories
is returned unchanged. -/
theorem setup_dirs_idempotent_witness :
    insert "logs" (insert code_execution_work_dir
        ({"coding_workspace", "logs"} : Finset String)) =
      ({"coding_workspace", "logs"} : Finset String) :=
  (setup_dirs_idempotent {"coding_workspace", "logs"}).2.2.2.2.2
    (by decide) (by decide)

/-! Group chat configuration and the round bound. -/

/-- Claim C3: the group chat is constructed with exactly the five configured
agents in order Admin, TestPlanGenerator, TestCaseGenerator, CodeGenerator,
TestReportAnalyzer, an empty initial message list and a maximum round count
of 5, and every conversation state reachable under the round-limited
framework loop has round count at most that maximum. -/
theorem groupchat_config_and_round_bound :
    groupchat.agents = [user_proxy.toAgent, test_plan_generator,
      test_case_generator, code_generator, test_report_analyzer] ∧
    groupchat.agents.map Agent.name =
      ["Admin", "TestPlanGenerator", "TestCaseGenerator", "CodeGenerator",
       "TestReportAnalyzer"] ∧
    groupchat.messages = [] ∧
    groupchat.max_round = 5 ∧
    ∀ s : ChatState, Reachable groupchat s → s.round ≤ groupchat.max_round := by
  refine ⟨rfl, rfl, rfl, rfl, ?_⟩
  intro s hs
  induction hs with
  | init => exact Nat.zero_le _
  | step hr hstep ih =>
    cases hstep with
    | speak m h => exact h

/-- Witness for claim C3: the initial conversation state is reachable and
within the round bound. -/
theorem groupchat_round_bound_witness :
    ChatState.round ⟨0, []⟩ ≤ groupchat.max_round :=
  groupchat_config_and_round_bound.2.2.2.2 ⟨0, []⟩ (Reachable.init)

/-! Agents as immutable configuration records. -/

/-- Claim C4: every agent is a configuration record constructed once at
start-up; all five agents reference the same LLM configuration, and the
conversation phase of the program changes no agent — the group chat's agent
list and the user proxy (name, system message, configuration, termination
predicate) are exactly as constructed. -/
theorem agents_immutable_shared_config :
    (user_proxy.llm_config = llm_config ∧
     test_plan_generator.llm_config = llm_config ∧
     test_case_generator.llm_config = llm_config ∧
     code_generator.llm_config = llm_config ∧
     test_report_analyzer.llm_config = llm_config) ∧
    ∀ (input : String) (s : RuntimeState),
      (conversationPhase input s).gc = s.gc ∧
      (conversationPhase input s).owner = s.owner :=
  ⟨⟨rfl, rfl, rfl, rfl, rfl⟩, fun _ _ => ⟨rfl, rfl⟩⟩

/-! Human input before code execution and termination. -/

/-- Claim C5: the user proxy is configured with human input mode "ALWAYS",
and in every trace of the (spec-modelled) user-proxy loop under that mode,
every code-execution event and every termination event is immediately
preceded by a human-input request. -/
theorem human_input_before_exec_or_terminate :
    user_proxy.human_input_mode = "ALWAYS" ∧
    ∀ (as : List ProxyAction) (pre post : List ProxyEv) (e : ProxyEv),
      (e = ProxyEv.execCode ∨ e = ProxyEv.terminate) →
      proxyTrace user_proxy.human_input_mode as = pre ++ e :: post →
      ∃ pre0, pre = pre0 ++ [ProxyEv.humanInput] := by
  refine ⟨rfl, ?_⟩
  intro as
  induction as with
  | nil =>
    intro pre post e he htr
    rw [show proxyTrace user_proxy.human_input_mode [] = [] from rfl] at htr
    simp at htr
  | cons a rest ih =>
    intro pre post e he htr
    have hT : proxyTrace user_proxy.human_input_mode (a :: rest)
        = proxyEmit "ALWAYS" a ++ proxyTrace user_proxy.human_input_mode rest := rfl
    rw [hT] at htr
    cases a with
    | reply =>
      rw [show proxyEmit "ALWAYS" ProxyAction.reply = [ProxyEv.reply] from rfl] at htr
      simp only [List.singleton_append] at htr
      cases pre with
      | nil =>
        simp only [List.nil_append] at htr
        injection htr with h1 h2
        rcases he with rfl | rfl
        · exact ProxyEv.noConfusion h1
        · exact ProxyEv.noConfusion h1
      | cons x pre1 =>
        simp only [List.cons_append] at htr
        injection htr with h1 h2
        obtain ⟨pre0, hp⟩ := ih pre1 post e he h2
        exact ⟨ProxyEv.reply :: pre0, by rw [← h1, hp]; rfl⟩
    | execCode =>
      rw [show proxyEmit "ALWAYS" ProxyAction.execCode
          = [ProxyEv.humanInput, ProxyEv.execCode] from rfl] at htr
      simp only [List.cons_append, List.nil_append] at htr
      cases pre with
      | nil =>
        simp only [List.nil_append] at htr
        injection htr with h1 h2
        rcases he with rfl | rfl
        · exact ProxyEv.noConfusion h1
        · exact ProxyEv.noConfusion h1
      | cons x pre1 =>
        simp only [List.cons_append] at htr
        injection htr with h1 h2
        cases pre1 with
        | nil =>
          exact ⟨[], by rw [← h1]; rfl⟩
        | cons y pre2 =>
          simp only [List.cons_append] at h2
          injection h2 with h3 h4
          obtain ⟨pre0, hp⟩ := ih pre2 post e he h4
          exact ⟨x :: y :: pre0, by rw [hp]; rfl⟩
    | terminate =>
      rw [show proxyEmit "ALWAYS" ProxyAction.terminate
          = [ProxyEv.humanInput, ProxyEv.terminate] from rfl] at htr
      simp only [List.cons_append, List.nil_append] at htr
      cases pre with
      | nil =>
        simp only [List.nil_append] at htr
        injection htr with h1 h2
        rcases he with rfl | rfl
        · exact ProxyEv.noConfusion h1
        · exact ProxyEv.noConfusion h1
      | cons x pre1 =>
        simp only [List.cons_append] at htr
        injection htr with h1 h2
        cases pre1 with
        | nil =>
          exact ⟨[], by rw [← h1]; rfl⟩
        | cons y pre2 =>
          simp only [List.cons_append] at h2
          injection h2 with h3 h4
          obtain ⟨pre0, hp⟩ := ih pre2 post e he h4
          exact ⟨x :: y :: pre0, by rw [hp]; rfl⟩

/-- Witness for claim C5: the trace of a single code-execution action places
a human-input request immediately before it. -/
theorem human_input_before_exec_or_terminate_witness :
    ∃ pre0, [ProxyEv.humanInput] = pre0 ++ [ProxyEv.humanInput] :=
  human_input_before_exec_or_terminate.2 [ProxyAction.execCode]
    [ProxyEv.humanInput] [] ProxyEv.execCode (Or.inl rfl) rfl

/-! Logging lifecycle and the main program. -/

theorem runLog_monotone (evs : List Ev) :
    ∀ st : Bool × List String, ∃ rest, (runLog st evs).2 = st.2 ++ rest := by
  induction evs with
  | nil => exact fun st => ⟨[], by simp [runLog]⟩
  | cons e evs ih =>
    intro st
    obtain ⟨rest, hrest⟩ := ih (logStep st e)
    cases e with
    | logStart p => exact ⟨rest, hrest⟩
    | logStop => exact ⟨rest, hrest⟩
    | chatMsg c =>
      by_cases ha : st.1
      · refine ⟨c :: rest, ?_⟩
        rw [show runLog st (Ev.chatMsg c :: evs) = runLog (logStep st (Ev.chatMsg c)) evs
            from rfl, hrest]
        simp [logStep, ha]
      · refine ⟨rest, ?_⟩
        rw [show runLog st (Ev.chatMsg c :: evs) = runLog (logStep st (Ev.chatMsg c)) evs
            from rfl, hrest]
        simp [logStep, ha]

/-- Claim C6: the session log is an optional toggle — the program variant
with logging disabled emits no logging events, while the enabled variant
starts logging to "logs/conversation_log.log" before the conversation,
stops it after the conversation finishes, and the log file is append-only
(running the logger over the trace only ever extends the file contents). -/
theorem logging_toggle_spec :
    ∀ (tmp task : String) (log0 : List String),
      ((programTrace false tmp task).all fun e => !isLogEv e) = true ∧
      programTrace true tmp task =
        [Ev.logStart "logs/conversation_log.log",
         Ev.chatMsg (initialMessage task), Ev.logStop] ∧
      (∃ rest, (runLog (false, log0) (programTrace true tmp task)).2 = log0 ++ rest) := by
  intro tmp task log0
  refine ⟨rfl, ?_, ?_⟩
  · have h : programTrace true tmp task
        = [Ev.logStart init_log_filename, Ev.chatMsg (initialMessage task),
           Ev.logStop] := rfl
    rw [h, show init_log_filename = "logs/conversation_log.log" from by decide]
  · exact runLog_monotone _ _

/-- Claim C7: the configured timeout 600 appears verbatim in the shared LLM
configuration handed to every agent and to the manager, and no logic of the
program acts on it — replacing the timeout everywhere commutes with the
conversation phase, so the value is passed through unchanged. -/
theorem timeout_passthrough :
    llm_config.timeout = 600 ∧
    user_proxy.llm_config = llm_config ∧
    test_plan_generator.llm_config = llm_config ∧
    test_case_generator.llm_config = llm_config ∧
    code_generator.llm_config = llm_config ∧
    test_report_analyzer.llm_config = llm_config ∧
    manager.llm_config = llm_config ∧
    manager.groupchat = groupchat ∧
    ∀ (t : Nat) (input : String) (s : RuntimeState),
      conversationPhase input (with_timeout_state t s) =
        with_timeout_state t (conversationPhase input s) :=
  ⟨rfl, rfl, rfl, rfl, rfl, rfl, rfl, rfl, fun _ _ _ => rfl⟩

/-- Claim C8: the program's input is a single line read from standard input,
and the chat is initiated with the fixed template message followed by that
line; further input lines are left unread, and an exhausted input stream
means no conversation is started. -/
theorem single_line_input_message_template :
    ∀ (line : String) (rest : List String) (s : RuntimeState),
      main_entry (line :: rest) s = some (conversationPhase line s, rest) ∧
      (conversationPhase line s).transcript =
        s.transcript ++ [[("content",
          "Please create a detailed test plan, then generate test cases, write automation code, execute it, and finally analyze the results for: "
            ++ line)]] ∧
      main_entry [] s = none :=
  fun _ _ _ => ⟨rfl, rfl, rfl⟩

/-- Claim C10: the temporary directory created at start-up is never used —
the log file path is the fixed relative path "logs/conversation_log.log"
whatever the temporary directory's name, and the program's event trace does
not depend on that name. -/
theorem tempdir_never_used :
    init_log_filename = "logs/conversation_log.log" ∧
    ∀ (tmp1 tmp2 task : String) (en : Bool),
      programTrace en tmp1 task = programTrace en tmp2 task :=
  ⟨by decide, fun _ _ _ _ => rfl⟩

end QaaAgentic
